import Mathlib

/-!
# Verification of the rpt-webapp-client protocol core

Shallow embedding of the TypeScript sources of `rpt-webapp-client` (RPTL /
SER protocol client library) and proofs about the embedded definitions.

Embedded components and their sources:
* `CommandParser.parseTo` — `src/lib/command-parser.ts`
* `ServiceContext` (request-uid issuance / completion) — `src/unnamed/part_001`
* `ServiceSubject` (per-service channel with outbound queue) — `src/unnamed/part_002`
* `SerProtocolService.handleCommand` / `bind` subscription — `src/lib/ser-protocol.service.ts`
* `RptlProtocolService` (inbound dispatch, roster, accessors) — current
  revision embedded in `src/lib/testing-helpers.ts` (the revision whose
  exports — `BadConnectionSubject`, `RptlState`, `getSerProtocol` — the unit
  test files import from `./rptl-protocol.service`)

Conventions of the embedding:
* JavaScript exceptions become `Except JsError` results (or an explicit
  `Option JsError` component where the post-throw state matters).
* rxjs subject notifications (observer callbacks) become explicit event
  lists returned alongside the new state.
* JavaScript numbers are modelled by `JsNum := Option Nat` where `none`
  plays the role of `NaN`; the protocol only ever produces non-negative
  integer tokens.
-/

set_option autoImplicit false

/-- Decidable equality for `Except`, used to evaluate the embedding on
concrete inputs. -/
instance {ε α : Type} [DecidableEq ε] [DecidableEq α] : DecidableEq (Except ε α) := fun a b =>
  match a, b with
  | .error e, .error f =>
    if h : e = f then .isTrue (by rw [h]) else .isFalse (fun hc => by cases hc; exact h rfl)
  | .error _, .ok _ => .isFalse (fun hc => by cases hc)
  | .ok _, .error _ => .isFalse (fun hc => by cases hc)
  | .ok x, .ok y =>
    if h : x = y then .isTrue (by rw [h]) else .isFalse (fun hc => by cases hc; exact h rfl)

namespace RptClient

/-- A JavaScript number as produced by `Number(token)` on protocol tokens:
`none` models `NaN`. -/
abbrev JsNum := Option Nat

/-- Model of the JS `Number(s)` conversion, restricted to the token shapes the
protocol produces: a non-empty all-digit token converts to its decimal value,
anything else to `NaN` (`none`).  (Other JS-convertible spellings — empty
string, sign characters, hex, floats — never occur as protocol uid tokens and
are conservatively mapped to `NaN`.) -/
def jsNumber (s : String) : JsNum :=
  if s.data.isEmpty then none
  else if s.data.all (fun c => c.isDigit) then
    some (s.data.foldl (fun n c => n * 10 + (c.toNat - '0'.toNat)) 0)
  else none

/-- Rendering of a `JsNum` by JS string interpolation. -/
def jsNumRepr (n : JsNum) : String :=
  match n with
  | none => "NaN"
  | some k => toString k

/-- JS strict equality `===` between two primitive numbers.  `NaN === NaN`
is false, hence `none, none ↦ false`. -/
def jsNumEq (a b : JsNum) : Bool :=
  match a, b with
  | some x, some y => x == y
  | _, _ => false

/-- Error classes thrown by the library (all extend `Error`). -/
inductive JsErrorKind where
  | badArgumentScheme
  | badServerMessage
  | badSerCommand
  | badSessionState
  | badRptlMode
  | objectUnsubscribed
  | plainError
  deriving DecidableEq, Repr

/-- A thrown JS error: its class and its `message` property. -/
structure JsError where
  kind : JsErrorKind
  message : String
  deriving DecidableEq, Repr

/-- Values produced by `CommandParser`'s argument converters.  The converters
are invoked as `new type(token)` (command-parser.ts line 108), so `String` and
`Number` schemes produce *boxed* wrapper objects, not primitives; this matters
for JS strict equality (see `jsStrictEqPrim`). -/
inductive JsValue where
  /-- `new String(s)`: a String wrapper object whose content is `s`. -/
  | strObj (s : String)
  /-- `new Number(s)`: a Number wrapper object whose value is `jsNumber s`. -/
  | numObj (n : JsNum)
  /-- a `ServiceRequestResponse` instance; `succeed` is its private flag. -/
  | srrObj (succeed : Bool)
  deriving DecidableEq, Repr

/-- JS strict equality `===` between a converter-produced value (always a
wrapper *object*) and a primitive string literal, as performed by a `switch`
statement's case selection.  An object is never strictly equal to a
primitive, so this is always `false` — faithful to ECMAScript semantics and
the source of the `handleCommand` dispatch defect proved below. -/
def jsStrictEqPrim (v : JsValue) (_lit : String) : Bool :=
  match v with
  | _ => false

/-- The JS `Number(v)` conversion applied to a converter-produced value, as
done by the current RPTL engine (`Number(parsedArguments.parsedData.uid)`,
testing-helpers.ts line 391): unboxes a Number wrapper. -/
def jsToNumber (v : JsValue) : JsNum :=
  match v with
  | .numObj n => n
  | .strObj s => jsNumber s
  | .srrObj _ => none

/-- String coercion as performed by template literals on a parsed value
(e.g. `` `Unknown command type: ${...}` ``). -/
def jsValueStr (v : JsValue) : String :=
  match v with
  | .strObj s => s
  | .numObj n => jsNumRepr n
  | .srrObj _ => "[object Object]"

/-! ## Command parser (`src/lib/command-parser.ts`)

`CommandParser` holds `unparsed : string` and `parsedData` (a plain JS object
used as a string-keyed insertion-ordered map).  `parsedData` is modelled as an
association list; note that `parseTo` (line 99) passes `this.parsedData` *by
reference* into the returned parser, so one list value describes the shared
object seen through both parsers. -/

/-- The `parsedData` object: insertion-ordered string-keyed entries. -/
abbrev Store (α : Type) := List (String × α)

/-- JS property read `store[key]` (`undefined` ↦ `none`).  Keys are unique in
every store the parser builds (it refuses to reassign), so first-match lookup
coincides with JS object lookup. -/
def storeGet {α : Type} : Store α → String → Option α
  | [], _ => none
  | (k, v) :: rest, key => if k = key then some v else storeGet rest key

/-- An argument scheme `{name, type}`: the converter models `new type(token)`,
which may throw (e.g. `ServiceRequestResponse` on a bad status token);
conversion errors are not caught by `parseTo` and propagate (source line 53
note). -/
structure Scheme (α : Type) where
  name : String
  conv : String → Except JsError α

/-- The word-scanning loop of `parseTo` (command-parser.ts lines 59-81),
character by character.  `cur` holds the reversed characters of the word
currently in parsing stage (the source tracks `wordBegin`/`wordLength` into
the same string; the extracted substring is identical), `words` the pushed
words.  Returns the pushed words, the pending current word and the rest of
the input at loop exit (the source's `currentCharIndex` position).  The
loop guard `parsedWords.length < argumentsToParse` is checked before every
character. -/
def scanLoop (n : Nat) : List Char → List Char → List String → List String × List Char × List Char
  | cs, cur, words =>
    if n ≤ words.length then (words, cur, cs)
    else
      match cs with
      | [] => (words, cur, [])
      | c :: rest =>
        if c = ' ' then
          if cur.isEmpty then scanLoop n rest [] words
          else scanLoop n rest [] (words ++ [String.mk cur.reverse])
        else scanLoop n rest (c :: cur) words

/-- The argument-assignment loop of `parseTo` (lines 101-109): for each scheme
check the name is still unused in the (shared) map, convert the next queued
word, and assign.  The source reverses `parsedWords` and `pop()`s — net
effect: words are consumed in original (FIFO) order, modelled by head
consumption.  The `[]` word case is unreachable because the word count was
checked against `schemes.length` before the loop (line 89). -/
def assignLoop {α : Type} : List (Scheme α) → List String → Store α → Except JsError (Store α)
  | [], _, store => .ok store
  | sch :: rest, toks, store =>
    if (storeGet store sch.name).isSome then
      .error ⟨.badArgumentScheme, "Argument name " ++ sch.name ++ " used at least twice"⟩
    else
      match toks with
      | [] => .error ⟨.plainError, "unreachable: word count was checked before the loop"⟩
      | t :: trest =>
        match sch.conv t with
        | .error e => .error e
        | .ok v => assignLoop rest trest (store ++ [(sch.name, v)])

/-- `CommandParser.parseTo` (command-parser.ts lines 55-113) over the state
`(unparsed, parsedData)`.  On success returns the new parser's
`(unparsed, parsedData)`; because `parsedData` is passed by reference
(line 99), the success store also describes the *receiver's* `parsedData`
object after the call.  Steps, in source order: scan up to
`schemes.length` words; push a pending word left at end of input; fail if
fewer words than schemes; flush separator characters; run the assignment
loop. -/
def parseToStr {α : Type} (unparsed : String) (parsedData : Store α) (schemes : List (Scheme α)) :
    Except JsError (String × Store α) :=
  let n := schemes.length
  let scanned := scanLoop n unparsed.data [] []
  let parsedWords :=
    if scanned.2.1.isEmpty then scanned.1 else scanned.1 ++ [String.mk scanned.2.1.reverse]
  if parsedWords.length < n then
    .error ⟨.badArgumentScheme,
      "Not enough arguments to parse: expected " ++ toString n ++ ", got " ++
        toString parsedWords.length⟩
  else
    let rest := scanned.2.2.dropWhile (· == ' ')
    match assignLoop schemes parsedWords parsedData with
    | .error e => .error e
    | .ok store => .ok (String.mk rest, store)

/-- The entries of the *receiver's* `parsedData` object after a successful
`parseTo` call.  Source: line 99 (`new CommandParser(..., this.parsedData)`)
shares the object and line 108 assigns the new entries through it, so after a
successful call the receiver's map holds exactly the returned parser's
entries.  `none` when the call throws (the partial mutation performed before
an exception is not needed by any claim and is not modelled). -/
def receiverDataAfter {α : Type} (unparsed : String) (parsedData : Store α)
    (schemes : List (Scheme α)) : Option (Store α) :=
  match parseToStr unparsed parsedData schemes with
  | .ok (_, store) => some store
  | .error _ => none

/-- Scheme with converter `String` (a boxed String wrapper). -/
def strScheme (name : String) : Scheme JsValue :=
  ⟨name, fun s => .ok (.strObj s)⟩

/-- Scheme with converter `Number` (a boxed Number wrapper; bad tokens give
`NaN`, never a throw). -/
def numScheme (name : String) : Scheme JsValue :=
  ⟨name, fun s => .ok (.numObj (jsNumber s))⟩

/-- Scheme with converter `ServiceRequestResponse`
(service-request-response.ts): `OK`/`KO` convert, anything else throws
`BadSerCommand` (whose constructor prefixes the reason). -/
def srrScheme (name : String) : Scheme JsValue :=
  ⟨name, fun s =>
    if s = "OK" then .ok (.srrObj true)
    else if s = "KO" then .ok (.srrObj false)
    else .error ⟨.badSerCommand, "Bad SER command: Unknown SRR status: " ++ s⟩⟩

example :
    parseToStr "EVENT  Chat   hello  world " ([] : Store JsValue) [strScheme "t"]
      = .ok ("Chat   hello  world ", [("t", .strObj "EVENT")]) := by decide

example :
    parseToStr "a" ([] : Store JsValue) [strScheme "x", strScheme "y"]
      = .error ⟨.badArgumentScheme, "Not enough arguments to parse: expected 2, got 1"⟩ := by
  decide

example :
    parseToStr "a b" ([("x", JsValue.strObj "z")]) [strScheme "x"]
      = .error ⟨.badArgumentScheme, "Argument name x used at least twice"⟩ := by decide

/-! ## Service context (`src/unnamed/part_001`, class `ServiceContext`)

`awaitingRequests` is a JS object keyed by request uid (`false` = awaiting a
response, `true` = responded); property keys are modelled as the numeric uid.
A `NaN` key (`none`) is never inserted by `generateServiceRequestUid`, hence
always reads as absent. -/

/-- The registry `awaitingRequests`. -/
abbrev Registry := List (Nat × Bool)

/-- First-match search for the property `k` (keys are unique in every
registry the context builds, so this coincides with JS object lookup). -/
def regFind : Registry → Nat → Option Bool
  | [], _ => none
  | (k0, v) :: rest, k => if k0 = k then some v else regFind rest k

/-- JS property read `awaitingRequests[uid]`. -/
def regGet (r : Registry) (uid : JsNum) : Option Bool :=
  match uid with
  | none => none
  | some k => regFind r k

/-- JS property assignment `awaitingRequests[uid] = b`: replaces the entry if
the key exists, appends otherwise. -/
def regSet (r : Registry) (uid : Nat) (b : Bool) : Registry :=
  match r with
  | [] => [(uid, b)]
  | (k, v) :: rest => if k = uid then (uid, b) :: rest else (k, v) :: regSet rest uid b

/-- `ServiceContext` state: `uidProvider` counter plus the registry. -/
structure Ctx where
  uidProvider : Nat
  awaiting : Registry
  deriving DecidableEq, Repr

/-- A freshly constructed `ServiceContext`. -/
def freshCtx : Ctx := ⟨0, []⟩

/-- `ServiceContext.generateServiceRequestUid` (part_001 lines 24-30): returns
the current counter, increments it, and marks the uid as awaiting. -/
def ctxGenerate (ctx : Ctx) : Nat × Ctx :=
  (ctx.uidProvider, ⟨ctx.uidProvider + 1, regSet ctx.awaiting ctx.uidProvider false⟩)

/-- `ServiceContext.done` (part_001 lines 37-47).  Returns the thrown error
(if any) together with the post-call state; the source performs no assignment
before either throw, so on failure the state component is the input state
unchanged.  Callers pass the parsed `requestUid` value, a Number wrapper
coerced back to a property key, modelled by the `JsNum`. -/
def ctxDone (ctx : Ctx) (uid : JsNum) : Option JsError × Ctx :=
  match regGet ctx.awaiting uid with
  | none =>
    (some ⟨.badSerCommand, "Bad SER command: No SR commands used UID " ++ jsNumRepr uid⟩, ctx)
  | some true =>
    (some ⟨.badSerCommand,
      "Bad SER command: SR command with UID " ++ jsNumRepr uid ++
        " already received a response"⟩, ctx)
  | some false =>
    match uid with
    | some k => (none, ⟨ctx.uidProvider, regSet ctx.awaiting k true⟩)
    | none => (none, ctx)

/-- `N` successive `generateServiceRequestUid` calls: the returned uids in
call order, and the final context. -/
def issueN : Nat → Ctx → List Nat × Ctx
  | 0, ctx => ([], ctx)
  | n + 1, ctx =>
    let r := ctxGenerate ctx
    let rest := issueN n r.2
    (r.1 :: rest.1, rest.2)

example : (issueN 3 freshCtx).1 = [0, 1, 2] := by decide

example : (ctxDone ⟨2, [(0, false), (1, true)]⟩ (some 1)).1
    = some ⟨.badSerCommand,
        "Bad SER command: SR command with UID 1 already received a response"⟩ := by decide

/-! ## Service channel (`src/unnamed/part_002`, class `ServiceSubject`)

A `ServiceSubject` wraps the shared `ServiceContext`, its service name and
the `commands` subject used to send formatted requests.  Observer
notifications and transport sends are returned as event lists. -/

/-- The `commands` subject a channel sends through: its `isStopped` flag, and
whether a `next(...)` call on it currently throws (modelling a transport-level
send failure, `none` = sends succeed). -/
structure Transport where
  isStopped : Bool
  sendFail : Option JsError
  deriving DecidableEq, Repr

/-- Mutable state of a `ServiceSubject`: the inherited `closed` (unsubscribed)
flag, the outbound `serviceRequestsQueue`, and the `commands` field. -/
structure SvcState where
  closed : Bool
  queue : List String
  commands : Transport
  deriving DecidableEq, Repr

/-- Observable effects of a channel operation. -/
inductive SvcEvent where
  /-- a line passed to `commands.next(...)` that the transport accepted. -/
  | sent (line : String)
  /-- `error()` delivered to every subscriber's error callback (without
  stopping the subject). -/
  | observersError (e : JsError)
  deriving DecidableEq, Repr

/-- `ServiceSubject.error` (part_002 lines 80-89): checks the subject was not
unsubscribed, then calls each subscriber's error callback without stopping
the subject (no state change). -/
def svcError (st : SvcState) (e : JsError) : Except JsError (List SvcEvent) :=
  if st.closed then .error ⟨.objectUnsubscribed, "object unsubscribed"⟩
  else .ok [.observersError e]

/-- `ServiceSubject.next` (part_002 lines 50-73).  `none` request models the
JS `undefined` argument.  With a stopped `commands` subject the request is
queued; otherwise a uid is issued and the formatted request sent; if the send
throws, the uid is released via `context.done` and the failure delivered to
this channel's observers via `error()`. -/
def svcNext (serviceName : String) (ctx : Ctx) (st : SvcState) (request : Option String) :
    Except JsError (Ctx × SvcState × List SvcEvent) :=
  match request with
  | none => .error ⟨.plainError, "Service Request is undefined"⟩
  | some req =>
    if st.closed then .error ⟨.objectUnsubscribed, "object unsubscribed"⟩
    else if st.commands.isStopped then
      .ok (ctx, { st with queue := st.queue ++ [req] }, [])
    else
      let issued := ctxGenerate ctx
      let line := "REQUEST " ++ toString issued.1 ++ " " ++ serviceName ++ " " ++ req
      match st.commands.sendFail with
      | none => .ok (issued.2, st, [.sent line])
      | some e =>
        let released := ctxDone issued.2 (some issued.1)
        match released.1 with
        | some e2 => .error e2
        | none =>
          match svcError st e with
          | .error e3 => .error e3
          | .ok evs => .ok (released.2, st, evs)

/-- The queue-draining loop of `boundWith` (part_002 lines 35-38), processing
one snapshot of the queue through `this.next`.  The source iterates the live
array with `for ... of`; with a live (non-stopped) subject — the only case
any claim concerns, and the only case in which the source loop terminates —
`next` never appends to the queue, so iterating the snapshot coincides with
the source. -/
def svcFlush (serviceName : String) :
    List String → Ctx → SvcState → List SvcEvent → Except JsError (Ctx × SvcState × List SvcEvent)
  | [], ctx, st, evs => .ok (ctx, st, evs)
  | req :: rest, ctx, st, evs =>
    match svcNext serviceName ctx st (some req) with
    | .error e => .error e
    | .ok (ctx2, st2, evs2) => svcFlush serviceName rest ctx2 st2 (evs ++ evs2)

/-- `ServiceSubject.boundWith` (part_002 lines 32-40): replace the `commands`
subject, send each queued message through `next`, then clear the queue. -/
def svcBoundWith (serviceName : String) (newCommands : Transport) (ctx : Ctx) (st : SvcState) :
    Except JsError (Ctx × SvcState × List SvcEvent) :=
  let rebound : SvcState := { st with commands := newCommands }
  match svcFlush serviceName rebound.queue ctx rebound [] with
  | .error e => .error e
  | .ok (ctx2, st2, evs) => .ok (ctx2, { st2 with queue := [] }, evs)

/-- The `REQUEST` lines sent when payloads `reqs` are flushed in order with
consecutive uids starting at `base`. -/
def sentLines (base : Nat) (serviceName : String) : List String → List SvcEvent
  | [] => []
  | req :: rest =>
    .sent ("REQUEST " ++ toString base ++ " " ++ serviceName ++ " " ++ req)
      :: sentLines (base + 1) serviceName rest

/-- The registry after marking `n` consecutive uids starting at `base` as
awaiting. -/
def markRange (r : Registry) (base : Nat) : Nat → Registry
  | 0 => r
  | n + 1 => markRange (regSet r base false) (base + 1) n

example :
    svcBoundWith "Chat" ⟨false, none⟩ ⟨2, [(0, true)]⟩ ⟨false, ["a b", "c"], ⟨true, none⟩⟩
      = .ok (⟨4, [(0, true), (2, false), (3, false)]⟩, ⟨false, [], ⟨false, none⟩⟩,
          [.sent "REQUEST 2 Chat a b", .sent "REQUEST 3 Chat c"]) := by decide

/-! ## SER protocol engine (`src/lib/ser-protocol.service.ts`)

State relevant to inbound command handling: the service-name registry, the
shared `ServiceContext` and the history of `errors.next(...)` publications
(the always-open non-fatal error stream). -/

/-- `SerProtocolService` state. -/
structure SerEngine where
  services : List String
  context : Ctx
  errorsLog : List String
  deriving DecidableEq, Repr

/-- Observable effects of SER inbound handling. -/
inductive SerEvent where
  /-- `serviceEventsSubject.fire(payload)`: the event delivered to the named
  service channel's subscribers. -/
  | eventFired (service : String) (payload : String)
  /-- `underlyingProtocol.endSession()` requested by the fatal-error catch of
  the `bind()` subscription. -/
  | terminationRequested
  deriving DecidableEq, Repr

/-- `SerProtocolService.handleCommand` (ser-protocol.service.ts lines
87-124).  The `switch` selects its case by JS strict equality between
`parsedData.serCommandType` — a boxed `new String(...)` object produced by
`CommandParser` — and the primitive literals `'EVENT'` / `'RESPONSE'`,
modelled by `jsStrictEqPrim`; an object is never strictly equal to a
primitive, so control always reaches `default`.  The service-registry read
`this.services[target]` coerces its boxed key to the string content (plain
name lookup; inherited `Object.prototype` keys never occur as service
names and are not modelled). -/
def handleSerCommand (eng : SerEngine) (serCommand : String) :
    Except JsError (SerEngine × List SerEvent) :=
  match parseToStr serCommand [] [strScheme "serCommandType"] with
  | .error e => .error e
  | .ok (rem1, store1) =>
    match storeGet store1 "serCommandType" with
    | none => .error ⟨.plainError, "unreachable: just-parsed entry is present"⟩
    | some v =>
      if jsStrictEqPrim v "EVENT" then
        match parseToStr rem1 store1 [strScheme "service"] with
        | .error e => .error e
        | .ok (rem2, store2) =>
          match storeGet store2 "service" with
          | some (.strObj target) =>
            if eng.services.contains target then .ok (eng, [.eventFired target rem2])
            else .error ⟨.badSerCommand, "Bad SER command: Service " ++ target ++ " does not exist"⟩
          | _ => .error ⟨.plainError, "unreachable: just-parsed entry is present"⟩
      else if jsStrictEqPrim v "RESPONSE" then
        match parseToStr rem1 store1 [numScheme "requestUid", srrScheme "response"] with
        | .error e => .error e
        | .ok (rem2, store2) =>
          match storeGet store2 "requestUid", storeGet store2 "response" with
          | some (.numObj uid), some (.srrObj succeed) =>
            match ctxDone eng.context uid with
            | (some e, _) => .error e
            | (none, ctx2) =>
              if succeed then .ok ({ eng with context := ctx2 }, [])
              else .ok ({ eng with context := ctx2, errorsLog := eng.errorsLog ++ [rem2] }, [])
          | _, _ => .error ⟨.plainError, "unreachable: just-parsed entries are present"⟩
      else .error ⟨.badSerCommand, "Bad SER command: Unknown command type: " ++ jsValueStr v⟩

/-- The inbound subscription installed by `bind()` (ser-protocol.service.ts
lines 154-162): `handleCommand` under a try/catch whose catch calls
`underlyingProtocol.endSession()` — any SER-level error is fatal to the RPTL
session and no exception escapes. -/
def onSerPayload (eng : SerEngine) (serCommand : String) : SerEngine × List SerEvent :=
  match handleSerCommand eng serCommand with
  | .ok r => r
  | .error _ => (eng, [.terminationRequested])

/-! ## RPTL protocol engine

Current revision of `RptlProtocolService`, embedded in
`src/lib/testing-helpers.ts` lines 239-719 (the revision whose exports the
unit tests import from `./rptl-protocol.service`). -/

/-- A registered participant (`actor.ts`): `uid` is the primitive number the
engine stores (converted by `Number(...)` from the parsed wrapper), `name`
the character content of the stored name value. -/
structure Actor where
  uid : JsNum
  name : String
  deriving DecidableEq, Repr

/-- `RptlState` (testing-helpers.ts lines 216-218). -/
inductive RptlState where
  | disconnected
  | unregistered
  | registered
  deriving DecidableEq, Repr

/-- `RptlProtocolService` state.  The `*Init` flags model whether the
optional subjects (`actors?`, `availability?`, `serProtocol?`) are currently
constructed; `msgStopped` is `messagingInterface.isStopped`; `closure`
records the `{code, reason}` object passed to `messagingInterface.error`
(the client-side close frame, `MockedWebsocketSubject.closureReason`). -/
structure RptlModel where
  registeredMode : Bool
  selfActor : Option Actor
  lastActorsValue : List Actor
  actorsInit : Bool
  availabilityInit : Bool
  serProtocolInit : Bool
  msgStopped : Bool
  closure : Option (Nat × String)
  deriving DecidableEq, Repr

/-- Observer notifications emitted by RPTL message handling. -/
inductive RptlEvent where
  /-- `actors.next(list)`: roster republished to roster observers. -/
  | rosterNext (actors : List Actor)
  /-- `availability.next(new Availability(count, cap))` (values unboxed). -/
  | availNext (count : JsNum) (cap : JsNum)
  /-- `serProtocol.handleCommand(payload)`: SER payload forwarded to the SER
  subject's observers. -/
  | serNext (payload : String)
  /-- `currentState.next(s)` from `notifyState()`. -/
  | stateNext (s : RptlState)
  | serCompleted
  | actorsCompleted
  | availCompleted
  | serErrored (message : String)
  | actorsErrored (message : String)
  | availErrored (message : String)
  deriving DecidableEq, Repr

/-- `notifyState()` value computation (testing-helpers.ts lines 295-307). -/
def rptlStateOf (st : RptlModel) : RptlState :=
  if st.msgStopped then .disconnected
  else if st.registeredMode then .registered
  else .unregistered

/-- The per-subject finalisation of `clearSession` (lines 315-330): each
constructed subject is errored with a `{message}` object, or completed. -/
def finalizeEvents (st : RptlModel) (err : Option String) : List RptlEvent :=
  match err with
  | some m =>
    (if st.serProtocolInit then [.serErrored m] else [])
      ++ (if st.actorsInit then [.actorsErrored m] else [])
      ++ (if st.availabilityInit then [.availErrored m] else [])
  | none =>
    (if st.serProtocolInit then [.serCompleted] else [])
      ++ (if st.actorsInit then [.actorsCompleted] else [])
      ++ (if st.availabilityInit then [.availCompleted] else [])

/-- `clearSession(error?)` (lines 315-330): finalise the subjects, then
`notifyState()`. -/
def clearSessionEvents (st : RptlModel) (err : Option String) : List RptlEvent :=
  finalizeEvents st err ++ [.stateNext (rptlStateOf st)]

/-- `handleInterruptCommand` (lines 366-372): bare `INTERRUPT` clears the
session normally, a non-empty remainder clears it with that error message. -/
def handleInterruptCmd (st : RptlModel) (rem : String) :
    Except JsError (RptlModel × List RptlEvent) :=
  if rem.length = 0 then .ok (st, clearSessionEvents st none)
  else .ok (st, clearSessionEvents st (some rem))

/-- `handleServiceCommand` (lines 374-377): forward the remainder verbatim to
`serProtocol?.handleCommand`. -/
def handleServiceCmd (st : RptlModel) (rem : String) :
    Except JsError (RptlModel × List RptlEvent) :=
  .ok (st, if st.serProtocolInit then [.serNext rem] else [])

/-- `handleLoggedInCommand` (testing-helpers.ts lines 379-400): parse
`<uid> <name>`, build the actor with `Number(...)`-unboxed uid, and append it
to the roster and republish — unless its uid strictly equals the local
participant's own uid (`newActor.uid !== this.selfActor?.uid`; when
`selfActor` is `undefined` the comparison is always "not equal"). -/
def handleLoggedInCmd (st : RptlModel) (rem : String) (store : Store JsValue) :
    Except JsError (RptlModel × List RptlEvent) :=
  match parseToStr rem store [numScheme "uid", strScheme "name"] with
  | .error e => .error ⟨.badServerMessage, e.message⟩
  | .ok (_, store2) =>
    match storeGet store2 "uid", storeGet store2 "name" with
    | some vu, some vn =>
      let newActor : Actor := ⟨jsToNumber vu, jsValueStr vn⟩
      let isSelf : Bool :=
        match st.selfActor with
        | some self => jsNumEq newActor.uid self.uid
        | none => false
      if isSelf then .ok (st, [])
      else
        let roster := st.lastActorsValue ++ [newActor]
        .ok ({ st with lastActorsValue := roster },
          if st.actorsInit then [.rosterNext roster] else [])
    | _, _ => .error ⟨.plainError, "unreachable: just-parsed entries are present"⟩

/-- `handleLoggedOutCommand` (lines 402-416): parse `<uid>`, keep every actor
whose uid is not strictly equal to it, republish. -/
def handleLoggedOutCmd (st : RptlModel) (rem : String) (store : Store JsValue) :
    Except JsError (RptlModel × List RptlEvent) :=
  match parseToStr rem store [numScheme "uid"] with
  | .error e => .error ⟨.badServerMessage, e.message⟩
  | .ok (_, store2) =>
    match storeGet store2 "uid" with
    | some vu =>
      let gone := jsToNumber vu
      let roster := st.lastActorsValue.filter (fun a => !(jsNumEq a.uid gone))
      .ok ({ st with lastActorsValue := roster },
        if st.actorsInit then [.rosterNext roster] else [])
    | _ => .error ⟨.plainError, "unreachable: just-parsed entry is present"⟩

/-- `handleAvailabilityCommand` (lines 418-431): parse two numbers and push a
new `Availability` snapshot. -/
def handleAvailabilityCmd (st : RptlModel) (rem : String) (store : Store JsValue) :
    Except JsError (RptlModel × List RptlEvent) :=
  match parseToStr rem store [numScheme "actorsCount", numScheme "maxActorsNumber"] with
  | .error e => .error ⟨.badServerMessage, e.message⟩
  | .ok (_, store2) =>
    match storeGet store2 "actorsCount", storeGet store2 "maxActorsNumber" with
    | some vc, some vm =>
      .ok (st, if st.availabilityInit then [.availNext (jsToNumber vc) (jsToNumber vm)] else [])
    | _, _ => .error ⟨.plainError, "unreachable: just-parsed entries are present"⟩

/-! ### Unfolding and length lemmas for the scanning loop -/

theorem scanLoop_stop {n : Nat} {cs cur : List Char} {words : List String}
    (h : n ≤ words.length) : scanLoop n cs cur words = (words, cur, cs) := by
  rw [scanLoop.eq_def]
  simp [h]

theorem scanLoop_nil {n : Nat} {cur : List Char} {words : List String}
    (h : words.length < n) : scanLoop n [] cur words = (words, cur, []) := by
  rw [scanLoop]
  simp [Nat.not_le.mpr h]

theorem scanLoop_space_skip {n : Nat} {rest : List Char} {words : List String}
    (h : words.length < n) :
    scanLoop n (' ' :: rest) [] words = scanLoop n rest [] words := by
  rw [scanLoop]
  simp [Nat.not_le.mpr h]

theorem scanLoop_space_push {n : Nat} {c0 : Char} {cur' rest : List Char} {words : List String}
    (h : words.length < n) :
    scanLoop n (' ' :: rest) (c0 :: cur') words
      = scanLoop n rest [] (words ++ [String.mk (c0 :: cur').reverse]) := by
  rw [scanLoop]
  simp [Nat.not_le.mpr h, List.isEmpty]

theorem scanLoop_char {n : Nat} {c : Char} {rest cur : List Char} {words : List String}
    (h : words.length < n) (hc : ¬c = ' ') :
    scanLoop n (c :: rest) cur words = scanLoop n rest (c :: cur) words := by
  rw [scanLoop]
  simp [Nat.not_le.mpr h, hc]

theorem scanLoop_rest_le (n : Nat) :
    ∀ (cs cur : List Char) (words : List String),
      ((scanLoop n cs cur words).2.2).length ≤ cs.length := by
  intro cs
  induction cs with
  | nil =>
    intro cur words
    by_cases h : n ≤ words.length
    · rw [scanLoop_stop h]
    · rw [scanLoop_nil (Nat.not_le.mp h)]
  | cons c rest ih =>
    intro cur words
    by_cases h : n ≤ words.length
    · rw [scanLoop_stop h]
    · have h' := Nat.not_le.mp h
      by_cases hc : c = ' '
      · subst hc
        match cur with
        | [] =>
          rw [scanLoop_space_skip h']
          exact Nat.le_succ_of_le (ih [] words)
        | c0 :: cur' =>
          rw [scanLoop_space_push h']
          exact Nat.le_succ_of_le (ih [] (words ++ [String.mk (c0 :: cur').reverse]))
      · rw [scanLoop_char h' hc]
        exact Nat.le_succ_of_le (ih (c :: cur) words)

theorem dropWhile_length_le {α : Type} (p : α → Bool) (l : List α) :
    (l.dropWhile p).length ≤ l.length := by
  induction l with
  | nil => simp
  | cons x xs ih =>
    by_cases h : p x
    · simp only [List.dropWhile_cons, h, if_true]
      exact Nat.le_succ_of_le ih
    · simp [List.dropWhile_cons, h]

/-- A successful `parseTo` with at least one scheme on a non-empty input
returns a strictly shorter remainder (needed for the termination of the
`REGISTRATION` parsing loop). -/
theorem parseTo_remainder_lt {α : Type} {s : String} {store store2 : Store α}
    {schemes : List (Scheme α)} {rem : String}
    (hne : s.data ≠ []) (hsch : schemes ≠ [])
    (h : parseToStr s store schemes = .ok (rem, store2)) : rem.length < s.length := by
  have hrem : rem = String.mk (((scanLoop schemes.length s.data [] []).2.2).dropWhile (· == ' ')) := by
    simp only [parseToStr] at h
    split at h
    all_goals split at h
    all_goals try exact Except.noConfusion h
    all_goals split at h
    all_goals try exact Except.noConfusion h
    all_goals injection h with h1
    all_goals injection h1 with h3 h4
    all_goals exact h3.symm
  have hlen : rem.length = (((scanLoop schemes.length s.data [] []).2.2).dropWhile (· == ' ')).length := by
    rw [hrem]
    rfl
  have hslen : s.length = s.data.length := rfl
  rw [hlen, hslen]
  obtain ⟨c, rest, hcs⟩ : ∃ c rest, s.data = c :: rest := by
    cases hq : s.data with
    | nil => exact absurd hq hne
    | cons c rest => exact ⟨c, rest, rfl⟩
  rw [hcs]
  have hn : (0 : Nat) < schemes.length := by
    match schemes with
    | [] => exact absurd rfl hsch
    | sch :: r => exact Nat.succ_pos _
  have hstep : ((scanLoop schemes.length (c :: rest) [] []).2.2).length ≤ rest.length := by
    by_cases hc : c = ' '
    · subst hc
      rw [scanLoop_space_skip hn]
      exact scanLoop_rest_le _ _ _ _
    · rw [scanLoop_char hn hc]
      exact scanLoop_rest_le _ _ _ _
  calc (((scanLoop schemes.length (c :: rest) [] []).2.2).dropWhile (· == ' ')).length
      ≤ ((scanLoop schemes.length (c :: rest) [] []).2.2).length :=
        dropWhile_length_le _ _
    _ ≤ rest.length := hstep
    _ < (c :: rest).length := Nat.lt_succ_self _

/-- The actor-pair parsing loop of `handleRegistrationCommand`
(testing-helpers.ts lines 438-462): while the current parser has unparsed
text, parse a `uid<i> name<i>` pair (rethrowing failures as
`BadServerMessage`), read the just-assigned entries back from the shared map
and push the actor with `Number(...)`-unboxed uid.  The fallback branch is
unreachable: the just-parsed names are always present with the shapes their
converters produce. -/
def regLoop (store : Store JsValue) (unparsed : String) (idx : Nat) (acc : List Actor) :
    Except JsError (List Actor) :=
  if h0 : unparsed.data = [] then .ok acc
  else
    match hp : parseToStr unparsed store
        [numScheme ("uid" ++ toString idx), strScheme ("name" ++ toString idx)] with
    | .error e => .error ⟨.badServerMessage, e.message⟩
    | .ok (rem, store2) =>
      match storeGet store2 ("uid" ++ toString idx), storeGet store2 ("name" ++ toString idx) with
      | some vu, some vn =>
        regLoop store2 rem (idx + 1) (acc ++ [⟨jsToNumber vu, jsValueStr vn⟩])
      | _, _ => .error ⟨.plainError, "unreachable: just-parsed entries are present"⟩
termination_by unparsed.length
decreasing_by exact parseTo_remainder_lt h0 (by simp) hp

/-- `handleRegistrationCommand` (testing-helpers.ts lines 433-478): reset the
roster, parse all `uid name` pairs, construct the SER subject and the actors
subject, complete the availability subject, switch to registered mode and
notify the new state. -/
def handleRegistrationCmd (st : RptlModel) (rem : String) (store : Store JsValue) :
    Except JsError (RptlModel × List RptlEvent) :=
  match regLoop store rem 0 [] with
  | .error e => .error e
  | .ok actors =>
    let st2 : RptlModel :=
      { st with
        lastActorsValue := actors
        serProtocolInit := true
        actorsInit := true
        registeredMode := true }
    .ok (st2, (if st.availabilityInit then [.availCompleted] else [])
      ++ [.stateNext (rptlStateOf st2)])

/-- `handleMessage` (testing-helpers.ts lines 340-364): parse the command
name (rethrowing parse failures as `BadServerMessage`), then look the handler
up in the mode's handler dictionary — the boxed command-name key is coerced
to its string content by the property access, modelled as a match on the
content (inherited `Object.prototype` keys never occur as protocol commands
and are not modelled) — and fail with `Unavailable command` when absent. -/
def handleMessage (st : RptlModel) (rptlMessage : String) :
    Except JsError (RptlModel × List RptlEvent) :=
  match parseToStr rptlMessage [] [strScheme "rptlCommand"] with
  | .error e => .error ⟨.badServerMessage, e.message⟩
  | .ok (rem, store) =>
    match storeGet store "rptlCommand" with
    | some (.strObj cmd) =>
      if st.registeredMode then
        match cmd with
        | "INTERRUPT" => handleInterruptCmd st rem
        | "SERVICE" => handleServiceCmd st rem
        | "LOGGED_IN" => handleLoggedInCmd st rem store
        | "LOGGED_OUT" => handleLoggedOutCmd st rem store
        | _ => .error ⟨.badServerMessage, "Unavailable command: " ++ cmd⟩
      else
        match cmd with
        | "AVAILABILITY" => handleAvailabilityCmd st rem store
        | "REGISTRATION" => handleRegistrationCmd st rem store
        | _ => .error ⟨.badServerMessage, "Unavailable command: " ++ cmd⟩
    | _ => .error ⟨.plainError, "unreachable: just-parsed entry is present"⟩

/-- Websocket close code for RPTL protocol errors (testing-helpers.ts
line 207). -/
def wsInternalError : Nat := 1011

/-- The inbound subscription installed by `beginSession` (testing-helpers.ts
lines 537-558): `handleMessage` under a try/catch.  The catch calls
`messagingInterface.error({code: 1011, reason: err.message})`, which stops
the connection subject and synchronously invokes this same subscription's
error callback with that `{code, reason}` object; that callback passes
`err.message` — `undefined` on that object — to `clearSession`, so the
subjects are finalised by completion and `DISCONNECTED` is notified.  No
exception escapes this handler. -/
def onInboundLine (st : RptlModel) (rptlMessage : String) : RptlModel × List RptlEvent :=
  match handleMessage st rptlMessage with
  | .ok r => r
  | .error e =>
    let stErr : RptlModel :=
      { st with msgStopped := true, closure := some (wsInternalError, e.message) }
    (stErr, clearSessionEvents stErr none)

/-! ### State accessors (`getActors`, `getStatus`, `getSerProtocol`) -/

/-- `isSessionRunning` (testing-helpers.ts lines 494-496). -/
def isSessionRunning (st : RptlModel) : Bool := !st.msgStopped

/-- `isRegistered` (lines 503-509): throws `BadSessionState` when no session
runs. -/
def isRegisteredM (st : RptlModel) : Except JsError Bool :=
  if !(isSessionRunning st) then .error ⟨.badSessionState, "Expected session to run"⟩
  else .ok st.registeredMode

/-- Result of an accessor: the shared live subject, or a freshly constructed
subject already errored with an `{message}` object (every subscriber
immediately receives that error). -/
inductive GetOutcome where
  | shared
  | freshErrored (message : String)
  deriving DecidableEq, Repr

/-- `getActors` (testing-helpers.ts lines 594-608).  The guard is the
short-circuit `isSessionRunning() && isRegistered()`, so `isRegistered` is
never reached without a running session and the accessor never throws.  The
source performs no assignment, so the state is returned unchanged. -/
def getActors (st : RptlModel) : Except JsError (RptlModel × GetOutcome) :=
  match (if isSessionRunning st then isRegisteredM st else .ok false) with
  | .error e => .error e
  | .ok cond =>
    if cond then .ok (st, .shared)
    else if isSessionRunning st then
      .ok (st, .freshErrored "Unable to get actors inside unregistered mode")
    else .ok (st, .freshErrored "Unable to get actors without a running session")

/-- `getStatus` (lines 628-646): guard `isSessionRunning() && !isRegistered()`,
else a fresh errored subject whose message depends on which precondition
failed. -/
def getStatus (st : RptlModel) : Except JsError (RptlModel × GetOutcome) :=
  match (if isSessionRunning st then (isRegisteredM st).map (fun b => !b) else .ok false) with
  | .error e => .error e
  | .ok cond =>
    if cond then .ok (st, .shared)
    else if !(isSessionRunning st) then
      .ok (st, .freshErrored "Unable to check for status without any session")
    else .ok (st, .freshErrored "Unable to check for status if already registered")

/-- `getSerProtocol` (lines 666-683): same structure as `getActors`. -/
def getSerProtocol (st : RptlModel) : Except JsError (RptlModel × GetOutcome) :=
  match (if isSessionRunning st then isRegisteredM st else .ok false) with
  | .error e => .error e
  | .ok cond =>
    if cond then .ok (st, .shared)
    else if isSessionRunning st then
      .ok (st, .freshErrored "Unable to retrieve SER Protocol subject into unregistered RPTL mode")
    else .ok (st, .freshErrored "Unable to retrieve SER Protocol subject without any running session")

/-! ### Tokenisation specification

A string "containing at least N whitespace-delimited tokens" is described by
a decomposition into `(separator, word)` pairs followed by a tail:
`glue pairs ++ tail`, where every separator is a run of spaces (the first may
be empty, the others must not be), every word is non-empty and space-free,
and the tail is empty or starts with a space. -/

/-- `cs` consists of space characters only. -/
def SpacesOnly (cs : List Char) : Prop := ∀ c ∈ cs, c = ' '

/-- `cs` contains no space character. -/
def WordChars (cs : List Char) : Prop := ∀ c ∈ cs, ¬c = ' '

instance (cs : List Char) : Decidable (SpacesOnly cs) := List.decidableBAll _ cs

instance (cs : List Char) : Decidable (WordChars cs) := List.decidableBAll _ cs

/-- Concatenation of the `(separator, word)` pairs. -/
def glue (pairs : List (List Char × List Char)) : List Char :=
  pairs.foldr (fun p acc => p.1 ++ p.2 ++ acc) []

/-- The source's post-loop push (command-parser.ts lines 83-85) applied to a
scanning result: the complete list of parsed words. -/
def scanOut (r : List String × List Char × List Char) : List String :=
  if r.2.1.isEmpty then r.1 else r.1 ++ [String.mk r.2.1.reverse]

theorem scanLoop_spaces {n : Nat} {cs : List Char} {words : List String} :
    ∀ {sep : List Char}, SpacesOnly sep → words.length < n →
      scanLoop n (sep ++ cs) [] words = scanLoop n cs [] words := by
  intro sep
  induction sep with
  | nil => intro _ _; rfl
  | cons c sep' ih =>
    intro hsp h
    have hc : c = ' ' := hsp c (by simp)
    subst hc
    rw [List.cons_append, scanLoop_space_skip h]
    exact ih (fun c hc => hsp c (by simp [hc])) h

theorem scanLoop_word {n : Nat} {cs : List Char} {words : List String} :
    ∀ {w cur : List Char}, WordChars w → words.length < n →
      scanLoop n (w ++ cs) cur words = scanLoop n cs (w.reverse ++ cur) words := by
  intro w
  induction w with
  | nil => intro _ _ _; rfl
  | cons c w' ih =>
    intro cur hw h
    have hc : ¬c = ' ' := hw c (by simp)
    rw [List.cons_append, scanLoop_char h hc, ih (fun x hx => hw x (by simp [hx])) h]
    simp

theorem scanLoop_space_push_ne {n : Nat} {rest cur : List Char} {words : List String}
    (h : words.length < n) (hcur : cur ≠ []) :
    scanLoop n (' ' :: rest) cur words
      = scanLoop n rest [] (words ++ [String.mk cur.reverse]) := by
  match cur with
  | [] => exact absurd rfl hcur
  | c0 :: cur' => exact scanLoop_space_push h

/-- Main scanning lemma: on an input decomposed into `pairs` then `tail` the
loop consumes exactly the pairs' words, and the remainder after the flush of
separator characters is the tail with its leading spaces stripped.  The
induction is on a bound `k` of `pairs.length` because the recursive step
re-packages the list with its head separator shortened by the consumed
space. -/
theorem scanLoop_glue (n : Nat) :
    ∀ (k : Nat) (pairs : List (List Char × List Char)) (tail : List Char) (words : List String),
      pairs.length ≤ k →
      n = words.length + pairs.length →
      (∀ p ∈ pairs, SpacesOnly p.1 ∧ p.2 ≠ [] ∧ WordChars p.2) →
      (∀ p ∈ pairs.tail, p.1 ≠ []) →
      (tail = [] ∨ tail.head? = some ' ') →
      scanOut (scanLoop n (glue pairs ++ tail) [] words)
          = words ++ pairs.map (fun p => String.mk p.2)
        ∧ ((scanLoop n (glue pairs ++ tail) [] words).2.2).dropWhile (· == ' ')
          = tail.dropWhile (· == ' ') := by
  intro k
  induction k with
  | zero =>
    intro pairs tail words hk hn hp hsep ht
    have hpairs : pairs = [] := List.length_eq_zero.mp (Nat.le_zero.mp hk)
    subst hpairs
    have hstop : n ≤ words.length := by simp at hn; omega
    rw [show glue [] ++ tail = tail from rfl, scanLoop_stop hstop]
    exact ⟨by simp [scanOut], rfl⟩
  | succ k ih =>
    intro pairs tail words hk hn hp hsep ht
    match pairs with
    | [] =>
      have hstop : n ≤ words.length := by simp at hn; omega
      rw [show glue [] ++ tail = tail from rfl, scanLoop_stop hstop]
      exact ⟨by simp [scanOut], rfl⟩
    | (sep, w) :: rest =>
      obtain ⟨hsp, hwne, hwch⟩ := hp (sep, w) (by simp)
      have hlt : words.length < n := by simp at hn; omega
      have hglue : glue ((sep, w) :: rest) ++ tail = sep ++ (w ++ (glue rest ++ tail)) := by
        simp [glue, List.append_assoc]
      rw [hglue, scanLoop_spaces hsp hlt, scanLoop_word hwch hlt, List.append_nil]
      have hrev : w.reverse ≠ [] := by simp [hwne]
      match rest, hsep, hn, hk with
      | [], _, hn, _ =>
        rcases ht with htail | htail
        · subst htail
          rw [show glue ([] : List (List Char × List Char)) ++ [] = ([] : List Char) from rfl,
            scanLoop_nil hlt]
          refine ⟨?_, rfl⟩
          simp [scanOut, List.isEmpty_iff, hrev]
        · cases tail with
          | nil => simp at htail
          | cons c t2 =>
            have hc : c = ' ' := by simpa using htail
            subst hc
            rw [show glue ([] : List (List Char × List Char)) ++ (' ' :: t2) = ' ' :: t2 from rfl,
              scanLoop_space_push_ne hlt hrev]
            have hstop : n ≤ (words ++ [String.mk w.reverse.reverse]).length := by
              simp at hn ⊢; omega
            rw [scanLoop_stop hstop]
            exact ⟨by simp [scanOut], by simp⟩
      | (sep2, w2) :: rest2, hsep, hn, hk =>
        have hsep2ne : sep2 ≠ [] := hsep (sep2, w2) (by simp)
        obtain ⟨hsp2, hw2ne, hw2ch⟩ := hp (sep2, w2) (by simp)
        match sep2, hsep2ne, hsp2 with
        | s0 :: sep2', _, hsp2 =>
          have hs0 : s0 = ' ' := hsp2 s0 (by simp)
          subst hs0
          have hglue2 : glue ((' ' :: sep2', w2) :: rest2) ++ tail
              = ' ' :: (glue ((sep2', w2) :: rest2) ++ tail) := by
            simp [glue, List.append_assoc]
          rw [hglue2, scanLoop_space_push_ne hlt hrev, List.reverse_reverse]
          have ihres := ih ((sep2', w2) :: rest2) tail (words ++ [String.mk w])
            (by simp at hk ⊢; omega)
            (by simp at hn ⊢; omega)
            (by
              intro q hq
              rcases List.mem_cons.mp hq with hq | hq
              · subst hq
                exact ⟨fun c hc => hsp2 c (by simp [hc]), hw2ne, hw2ch⟩
              · exact hp q (by simp [hq]))
            (by
              intro q hq
              simp only [List.tail_cons] at hq
              exact hsep q (List.mem_cons_of_mem _ hq))
            ht
          refine ⟨?_, ihres.2⟩
          rw [ihres.1]
          simp

/-! ### Assignment-loop specification -/

theorem storeGet_cons {α : Type} (k0 : String) (v : α) (rest : Store α) (key : String) :
    storeGet ((k0, v) :: rest) key = if k0 = key then some v else storeGet rest key := rfl

theorem storeGet_append_of_none {α : Type} {s1 : Store α} {k : String}
    (s2 : Store α) (h : storeGet s1 k = none) :
    storeGet (s1 ++ s2) k = storeGet s2 k := by
  induction s1 with
  | nil => rfl
  | cons p rest ih =>
    obtain ⟨k0, v⟩ := p
    rw [storeGet_cons] at h
    by_cases hk : k0 = k
    · rw [if_pos hk] at h
      exact Option.noConfusion h
    · rw [if_neg hk] at h
      rw [List.cons_append, storeGet_cons, if_neg hk]
      exact ih h

/-- Schemes whose converters never throw, given as plain functions. -/
def liftSchemes {α : Type} (convs : List (String × (String → α))) : List (Scheme α) :=
  convs.map (fun pc => ⟨pc.1, fun s => .ok (pc.2 s)⟩)

theorem assignLoop_fresh {α : Type} :
    ∀ (convs : List (String × (String → α))) (toks : List String) (store : Store α),
      convs.length = toks.length →
      (convs.map Prod.fst).Nodup →
      (∀ nm ∈ convs.map Prod.fst, storeGet store nm = none) →
      assignLoop (liftSchemes convs) toks store
        = .ok (store ++ (convs.zip toks).map (fun x => (x.1.1, x.1.2 x.2))) := by
  intro convs
  induction convs with
  | nil =>
    intro toks store _ _ _
    have hred : assignLoop (liftSchemes ([] : List (String × (String → α)))) toks store
        = .ok store := rfl
    rw [hred]
    simp
  | cons pc convs' ih =>
    intro toks store hlen hnodup hfresh
    obtain ⟨nm, f⟩ := pc
    match toks, hlen with
    | t :: toks', hlen =>
      have hfr : storeGet store nm = none := hfresh nm (by simp)
      have hnodup' : (nm :: convs'.map Prod.fst).Nodup := by simpa using hnodup
      have hnm_notin : nm ∉ convs'.map Prod.fst := (List.nodup_cons.mp hnodup').1
      have htail_nodup : (convs'.map Prod.fst).Nodup := (List.nodup_cons.mp hnodup').2
      simp only [liftSchemes, List.map_cons, assignLoop, hfr, Option.isSome_none,
        Bool.false_eq_true, if_false]
      rw [show assignLoop (List.map (fun pc => (⟨pc.1, fun s => .ok (pc.2 s)⟩ : Scheme α)) convs')
            toks' (store ++ [(nm, f t)])
          = assignLoop (liftSchemes convs') toks' (store ++ [(nm, f t)]) from rfl]
      rw [ih toks' (store ++ [(nm, f t)]) (by simpa using hlen) htail_nodup
        (by
          intro nm' hnm'
          have hne : ¬nm = nm' := by
            intro hcon
            exact hnm_notin (by rwa [hcon])
          rw [storeGet_append_of_none _ (hfresh nm' (by simp [hnm']))]
          simp [storeGet, hne])]
      simp

/-- Full specification of a successful `parseTo` call on an input holding at
least as many tokens as schemes, with fresh pairwise-distinct argument names
and non-throwing converters: exactly the pairs' words are consumed in order,
each converter is applied to its word, the new entries are appended to the
shared map in scheme order, and the remainder is the unconsumed tail with
its leading separator run stripped and the rest kept verbatim. -/
theorem parseToStr_glue {α : Type} (convs : List (String × (String → α)))
    (pairs : List (List Char × List Char)) (tail : List Char) (store : Store α)
    (hlen : convs.length = pairs.length)
    (hp : ∀ p ∈ pairs, SpacesOnly p.1 ∧ p.2 ≠ [] ∧ WordChars p.2)
    (hsep : ∀ p ∈ pairs.tail, p.1 ≠ [])
    (ht : tail = [] ∨ tail.head? = some ' ')
    (hnodup : (convs.map Prod.fst).Nodup)
    (hfresh : ∀ nm ∈ convs.map Prod.fst, storeGet store nm = none) :
    parseToStr (String.mk (glue pairs ++ tail)) store (liftSchemes convs)
      = .ok (String.mk (tail.dropWhile (· == ' ')),
          store ++ (convs.zip pairs).map (fun x => (x.1.1, x.1.2 (String.mk x.2.2)))) := by
  have hn : (liftSchemes convs).length = pairs.length := by simp [liftSchemes, hlen]
  have hscan := scanLoop_glue (liftSchemes convs).length pairs.length pairs tail []
    (le_refl _) (by simpa using hn) hp hsep ht
  simp only [parseToStr]
  have hwords :
      (if (scanLoop (liftSchemes convs).length (glue pairs ++ tail) [] []).2.1.isEmpty then
          (scanLoop (liftSchemes convs).length (glue pairs ++ tail) [] []).1
        else (scanLoop (liftSchemes convs).length (glue pairs ++ tail) [] []).1
          ++ [String.mk (scanLoop (liftSchemes convs).length (glue pairs ++ tail) [] []).2.1.reverse])
      = pairs.map (fun p => String.mk p.2) := by
    have := hscan.1
    simpa [scanOut] using this
  rw [hwords]
  have hnotlt : ¬(pairs.map (fun p => String.mk p.2)).length < (liftSchemes convs).length := by
    simp [hn]
  rw [if_neg hnotlt]
  rw [assignLoop_fresh convs (pairs.map (fun p => String.mk p.2)) store
    (by simp [hlen]) hnodup hfresh]
  have hzip : (convs.zip (pairs.map fun p => String.mk p.2)).map (fun x => (x.1.1, x.1.2 x.2))
      = (convs.zip pairs).map (fun x => (x.1.1, x.1.2 (String.mk x.2.2))) := by
    rw [List.zip_map_right, List.map_map]
    rfl
  rw [hzip, hscan.2]

/-! ### Registry and context lemmas -/

theorem regFind_regSet_self : ∀ (r : Registry) (k : Nat) (b : Bool),
    regFind (regSet r k b) k = some b := by
  intro r
  induction r with
  | nil =>
    intro k b
    simp [regSet, regFind]
  | cons p rest ih =>
    intro k b
    obtain ⟨k0, v⟩ := p
    by_cases hk : k0 = k
    · simp [regSet, hk, regFind]
    · simp only [regSet, hk, if_false, regFind]
      exact ih k b

theorem issueN_fst : ∀ (n : Nat) (ctx : Ctx), (issueN n ctx).1 = List.range' ctx.uidProvider n := by
  intro n
  induction n with
  | zero => intro ctx; rfl
  | succ n ih =>
    intro ctx
    simp only [issueN, ctxGenerate, ih, List.range']

/-! ### Service channel lemmas -/

theorem svcNext_queued (serviceName : String) (ctx : Ctx) (st : SvcState) (p : String)
    (hcl : st.closed = false) (hstop : st.commands.isStopped = true) :
    svcNext serviceName ctx st (some p) = .ok (ctx, { st with queue := st.queue ++ [p] }, []) := by
  simp [svcNext, hcl, hstop]

theorem svcNext_live_ok (serviceName : String) (ctx : Ctx) (st : SvcState) (p : String)
    (hcl : st.closed = false) (hlive : st.commands.isStopped = false)
    (hok : st.commands.sendFail = none) :
    svcNext serviceName ctx st (some p)
      = .ok (⟨ctx.uidProvider + 1, regSet ctx.awaiting ctx.uidProvider false⟩, st,
          [.sent ("REQUEST " ++ toString ctx.uidProvider ++ " " ++ serviceName ++ " " ++ p)]) := by
  simp [svcNext, hcl, hlive, hok, ctxGenerate]

theorem svcFlush_live (serviceName : String) :
    ∀ (q : List String) (ctx : Ctx) (st : SvcState) (evs : List SvcEvent),
      st.closed = false → st.commands.isStopped = false → st.commands.sendFail = none →
      svcFlush serviceName q ctx st evs
        = .ok (⟨ctx.uidProvider + q.length,
            markRange ctx.awaiting ctx.uidProvider q.length⟩, st,
          evs ++ sentLines ctx.uidProvider serviceName q) := by
  intro q
  induction q with
  | nil =>
    intro ctx st evs _ _ _
    simp [svcFlush, sentLines, markRange]
  | cons r q' ih =>
    intro ctx st evs hcl hlive hok
    simp only [svcFlush, svcNext_live_ok serviceName ctx st r hcl hlive hok]
    rw [ih _ _ _ hcl hlive hok]
    have harith : ctx.uidProvider + 1 + q'.length = ctx.uidProvider + (q'.length + 1) := by omega
    simp only [sentLines, markRange, List.length_cons, harith]
    simp

/-! ### Assignment-loop append lemma (shared-map mutation shape) -/

theorem assignLoop_ok_append {α : Type} :
    ∀ (schemes : List (Scheme α)) (toks : List String) (store st' : Store α),
      assignLoop schemes toks store = .ok st' → ∃ added, st' = store ++ added := by
  intro schemes
  induction schemes with
  | nil =>
    intro toks store st' h
    have hst : st' = store := by
      have : assignLoop ([] : List (Scheme α)) toks store = .ok store := rfl
      rw [this] at h
      injection h with h1
      exact h1.symm
    exact ⟨[], by simp [hst]⟩
  | cons sch rest ih =>
    intro toks store st' h
    simp only [assignLoop] at h
    split at h
    · exact Except.noConfusion h
    · split at h
      · exact Except.noConfusion h
      next t2 trest2 heqt =>
        split at h
        · exact Except.noConfusion h
        next v2 heqc =>
          obtain ⟨added2, hadd⟩ := ih _ (store ++ [(sch.name, v2)]) st' h
          exact ⟨(sch.name, v2) :: added2, by simp [hadd]⟩

/-- Shape of a successful `parseTo`: the result store comes from a successful
assignment loop on the input store. -/
theorem parseToStr_ok_assign {α : Type} {s : String} {store st' : Store α}
    {schemes : List (Scheme α)} {rem : String}
    (h : parseToStr s store schemes = .ok (rem, st')) :
    ∃ toks, assignLoop schemes toks store = .ok st' := by
  simp only [parseToStr] at h
  split at h
  all_goals split at h
  all_goals try exact Except.noConfusion h
  all_goals split at h
  all_goals try exact Except.noConfusion h
  all_goals injection h with h1
  all_goals injection h1 with h3 h4
  all_goals rename_i x0 store0 heq
  all_goals exact ⟨_, h4 ▸ heq⟩

/-- Stripping leading spaces from a list that starts with a non-empty
space-free word changes nothing. -/
theorem dropWhile_word_prefix {u : List Char} (r : List Char)
    (hu : u ≠ []) (huch : WordChars u) :
    (u ++ r).dropWhile (· == ' ') = u ++ r := by
  match u, hu with
  | c :: u', _ =>
    have hc : ¬c = ' ' := huch c (by simp)
    have hbeq : (c == ' ') = false := by
      simpa using hc
    simp [List.dropWhile_cons, hbeq]

/-! ## Claims -/

/-- **C5** — For every input string containing at least `N` whitespace-
delimited tokens (decomposed as `glue pairs ++ tail`, separators being runs
of spaces with the leading run possibly empty, the tail empty or starting
with a space) and every list of `N` argument schemes with pairwise-fresh
names, `parseTo` consumes exactly the first `N` tokens left to right
(collapsing separator runs, tolerating leading whitespace), applies each
scheme's converter to its token in order, and returns a parser whose mapping
is the old mapping plus the `N` new entries and whose remainder is the
unconsumed suffix with the consumed tokens and their separators stripped,
the leading separator stripped, and all remaining content (internal multiple
spaces and trailing whitespace included) preserved verbatim. -/
theorem c5_parseTo_consumes_exactly {α : Type} (convs : List (String × (String → α)))
    (pairs : List (List Char × List Char)) (tail : List Char) (old : Store α)
    (hlen : convs.length = pairs.length)
    (hp : ∀ p ∈ pairs, SpacesOnly p.1 ∧ p.2 ≠ [] ∧ WordChars p.2)
    (hsep : ∀ p ∈ pairs.tail, p.1 ≠ [])
    (ht : tail = [] ∨ tail.head? = some ' ')
    (hnodup : (convs.map Prod.fst).Nodup)
    (hfresh : ∀ nm ∈ convs.map Prod.fst, storeGet old nm = none) :
    parseToStr (String.mk (glue pairs ++ tail)) old (liftSchemes convs)
      = .ok (String.mk (tail.dropWhile (· == ' ')),
          old ++ (convs.zip pairs).map (fun x => (x.1.1, x.1.2 (String.mk x.2.2)))) :=
  parseToStr_glue convs pairs tail old hlen hp hsep ht hnodup hfresh

theorem c5_witness :
    ([("a", fun (s : String) => s), ("b", fun s => s ++ "!")].map Prod.fst).Nodup
    ∧ parseToStr
        (String.mk (glue [([], ['x']), ([' ', ' '], ['y', 'y'])]
          ++ [' ', ' ', 'z', ' ', ' ', 'w', ' ']))
        ([] : Store String)
        (liftSchemes [("a", fun s => s), ("b", fun s => s ++ "!")])
      = .ok (String.mk ([' ', ' ', 'z', ' ', ' ', 'w', ' '].dropWhile (· == ' ')),
          [] ++ ([("a", fun (s : String) => s), ("b", fun s => s ++ "!")].zip
              [([], ['x']), ([' ', ' '], ['y', 'y'])]).map
            (fun x => (x.1.1, x.1.2 (String.mk x.2.2)))) :=
  ⟨by decide,
    c5_parseTo_consumes_exactly [("a", fun s => s), ("b", fun s => s ++ "!")]
      [([], ['x']), ([' ', ' '], ['y', 'y'])] [' ', ' ', 'z', ' ', ' ', 'w', ' '] []
      (by decide)
      (by
        intro p hp
        rcases List.mem_cons.mp hp with hp | hp
        · subst hp
          exact ⟨by decide, by decide, by decide⟩
        · simp only [List.mem_singleton] at hp
          subst hp
          exact ⟨by decide, by decide, by decide⟩)
      (by
        intro p hp
        simp only [List.tail_cons, List.mem_singleton] at hp
        subst hp
        decide)
      (Or.inr rfl)
      (by decide)
      (by
        intro nm hnm
        rfl)⟩

example : parseToStr "x  yy  z  w " ([] : Store String)
    (liftSchemes [("a", fun s => s), ("b", fun s => s ++ "!")])
    = .ok ("z  w ", [("a", "x"), ("b", "yy!")]) := by decide

/-- **C6 counterexample** — the claim "`parseTo` leaves the receiver's
`parsedData` entries unchanged, new entries appearing only in the returned
parser's state" is false: after `parseTo` on receiver `("a b", {})` with one
scheme, the receiver's shared `parsedData` object holds the new entry. -/
theorem c6_counterexample :
    receiverDataAfter "a b" ([] : Store String) (liftSchemes [("x", fun s => s)])
        = some [("x", "a")]
    ∧ some ([("x", "a")] : Store String) ≠ some ([] : Store String) := by
  constructor
  · decide
  · decide

/-- **C6 (amended)** — `parseTo` leaves `p.unparsed` and the `p.parsedData`
*reference* unchanged, but the entries are shared with the returned parser:
after a successful call the receiver's `parsedData` object holds exactly the
returned parser's mapping, which is the old entries plus the newly parsed
ones (the call mutates the object shared through the reference passed at
command-parser.ts line 99). -/
theorem c6_receiver_shares_mutated_map {α : Type} (s : String) (old : Store α)
    (schemes : List (Scheme α)) (rem : String) (st' : Store α)
    (h : parseToStr s old schemes = .ok (rem, st')) :
    receiverDataAfter s old schemes = some st' ∧ ∃ added, st' = old ++ added := by
  constructor
  · simp [receiverDataAfter, h]
  · obtain ⟨toks, htoks⟩ := parseToStr_ok_assign h
    exact assignLoop_ok_append schemes toks old st' htoks

theorem c6_witness :
    parseToStr "a b" ([] : Store String) (liftSchemes [("x", fun s => s)])
        = .ok ("b", [("x", "a")])
    ∧ (receiverDataAfter "a b" ([] : Store String) (liftSchemes [("x", fun s => s)])
          = some [("x", "a")]
        ∧ ∃ added, [("x", "a")] = ([] : Store String) ++ added) :=
  ⟨by decide,
    c6_receiver_shares_mutated_map "a b" [] (liftSchemes [("x", fun s => s)]) "b" [("x", "a")]
      (by decide)⟩

/-- **C7** — For every fresh Request Context and every `N`, the values
returned by `N` successive `generateServiceRequestUid` calls are exactly
`0, 1, ..., N-1`: strictly increasing, 0-based, consecutive, none returned
twice. -/
theorem c7_issue_zero_based_consecutive (N : Nat) :
    (issueN N freshCtx).1 = List.range N := by
  rw [issueN_fst]
  exact (List.range_eq_range' N).symm

/-- **C8** — `done(id)` succeeds and marks `id` as responded exactly when
`id` was previously issued and not yet responded; it throws `BadSerCommand`
both when `id` was never issued and when it was already marked responded,
and in those failure cases the registry is unchanged. -/
theorem c8_done_exactly_once (ctx : Ctx) (id : Nat) :
    ((ctxDone ctx (some id)).1 = none ↔ regGet ctx.awaiting (some id) = some false)
    ∧ (regGet ctx.awaiting (some id) = some false →
        ctxDone ctx (some id) = (none, ⟨ctx.uidProvider, regSet ctx.awaiting id true⟩)
        ∧ regGet (regSet ctx.awaiting id true) (some id) = some true)
    ∧ (regGet ctx.awaiting (some id) = none →
        (ctxDone ctx (some id)).2 = ctx
        ∧ (ctxDone ctx (some id)).1
          = some ⟨.badSerCommand, "Bad SER command: No SR commands used UID " ++ toString id⟩)
    ∧ (regGet ctx.awaiting (some id) = some true →
        (ctxDone ctx (some id)).2 = ctx
        ∧ (ctxDone ctx (some id)).1
          = some ⟨.badSerCommand, "Bad SER command: SR command with UID " ++ toString id
              ++ " already received a response"⟩) := by
  refine ⟨?_, ?_, ?_, ?_⟩
  · constructor
    · intro hnone
      match hx : regGet ctx.awaiting (some id) with
      | none => simp [ctxDone, hx] at hnone
      | some true => simp [ctxDone, hx] at hnone
      | some false => rfl
    · intro hx
      simp [ctxDone, hx]
  · intro hx
    exact ⟨by simp [ctxDone, hx, jsNumRepr], by simp [regGet, regFind_regSet_self]⟩
  · intro hx
    exact ⟨by simp [ctxDone, hx], by simp [ctxDone, hx, jsNumRepr]⟩
  · intro hx
    exact ⟨by simp [ctxDone, hx], by simp [ctxDone, hx, jsNumRepr]⟩

theorem c8_witness :
    regGet ([(0, false), (1, true)] : Registry) (some 0) = some false
    ∧ (ctxDone ⟨2, [(0, false), (1, true)]⟩ (some 0)
          = (none, ⟨2, regSet [(0, false), (1, true)] 0 true⟩)
        ∧ regGet (regSet [(0, false), (1, true)] 0 true) (some 0) = some true) :=
  ⟨by decide, (c8_done_exactly_once ⟨2, [(0, false), (1, true)]⟩ 0).2.1 (by decide)⟩

/-- **C2** — While the bound transport subject is stopped, `next` with a
defined payload appends it to the channel's FIFO queue, issuing no request
identifier (the shared context is untouched) and sending nothing; a later
`boundWith` with a live transport sends every queued payload in original
insertion order as `REQUEST <id> <serviceName> <payload>` with identifiers
drawn from the shared context only at flush time (consecutive from the
context's current counter, so increasing across the whole engine in flush
order), and empties the queue. -/
theorem c2_queue_then_flush (serviceName : String) :
    (∀ (ctx : Ctx) (st : SvcState) (p : String),
      st.closed = false → st.commands.isStopped = true →
      svcNext serviceName ctx st (some p) = .ok (ctx, { st with queue := st.queue ++ [p] }, []))
    ∧ (∀ (ctx : Ctx) (st : SvcState) (tr : Transport),
      st.closed = false → tr.isStopped = false → tr.sendFail = none →
      svcBoundWith serviceName tr ctx st
        = .ok (⟨ctx.uidProvider + st.queue.length,
            markRange ctx.awaiting ctx.uidProvider st.queue.length⟩,
          { st with queue := [], commands := tr },
          sentLines ctx.uidProvider serviceName st.queue)) := by
  constructor
  · intro ctx st p hcl hstop
    exact svcNext_queued serviceName ctx st p hcl hstop
  · intro ctx st tr hcl hlive hok
    simp only [svcBoundWith]
    rw [svcFlush_live serviceName st.queue ctx { st with commands := tr } [] hcl hlive hok]
    simp

theorem c2_witness :
    svcNext "Chat" ⟨2, [(0, true)]⟩ ⟨false, ["a"], ⟨true, none⟩⟩ (some "x")
        = .ok (⟨2, [(0, true)]⟩, ⟨false, ["a", "x"], ⟨true, none⟩⟩, [])
    ∧ svcBoundWith "Chat" ⟨false, none⟩ ⟨2, [(0, true)]⟩ ⟨false, ["a", "b"], ⟨true, none⟩⟩
        = .ok (⟨4, [(0, true), (2, false), (3, false)]⟩, ⟨false, [], ⟨false, none⟩⟩,
            [.sent "REQUEST 2 Chat a", .sent "REQUEST 3 Chat b"]) := by
  constructor
  · have h := (c2_queue_then_flush "Chat").1 ⟨2, [(0, true)]⟩ ⟨false, ["a"], ⟨true, none⟩⟩ "x"
      rfl rfl
    exact h
  · have h := (c2_queue_then_flush "Chat").2 ⟨2, [(0, true)]⟩ ⟨false, ["a", "b"], ⟨true, none⟩⟩
      ⟨false, none⟩ rfl rfl rfl
    rw [h]
    decide

/-- **C9** — When the transport is live but the transport-level send throws,
`next` itself does not throw: the just-issued identifier is released via
`context.done` (so a later `done` on it fails as already-responded), the
failure is delivered to the channel's own observers via their error
callbacks, and the channel state is unchanged — still open (not closed, not
stopped), able to send and receive. -/
theorem c9_send_failure_released (serviceName : String) (ctx : Ctx) (st : SvcState)
    (p : String) (e : JsError)
    (hcl : st.closed = false) (hlive : st.commands.isStopped = false)
    (hfail : st.commands.sendFail = some e) :
    svcNext serviceName ctx st (some p)
      = .ok (⟨ctx.uidProvider + 1,
          regSet (regSet ctx.awaiting ctx.uidProvider false) ctx.uidProvider true⟩, st,
        [.observersError e])
    ∧ regGet (regSet (regSet ctx.awaiting ctx.uidProvider false) ctx.uidProvider true)
        (some ctx.uidProvider) = some true
    ∧ (ctxDone ⟨ctx.uidProvider + 1,
          regSet (regSet ctx.awaiting ctx.uidProvider false) ctx.uidProvider true⟩
        (some ctx.uidProvider)).1
      = some ⟨.badSerCommand, "Bad SER command: SR command with UID "
          ++ toString ctx.uidProvider ++ " already received a response"⟩ := by
  have hdone : ctxDone ⟨ctx.uidProvider + 1, regSet ctx.awaiting ctx.uidProvider false⟩
      (some ctx.uidProvider)
      = (none, ⟨ctx.uidProvider + 1,
          regSet (regSet ctx.awaiting ctx.uidProvider false) ctx.uidProvider true⟩) := by
    simp [ctxDone, regGet, regFind_regSet_self]
  have hmarked : regGet (regSet (regSet ctx.awaiting ctx.uidProvider false) ctx.uidProvider true)
      (some ctx.uidProvider) = some true := by
    simp [regGet, regFind_regSet_self]
  refine ⟨?_, hmarked, ?_⟩
  · simp [svcNext, hcl, hlive, hfail, ctxGenerate, hdone, svcError]
  · simp [ctxDone, hmarked, jsNumRepr]

theorem c9_witness :
    svcNext "Chat" ⟨1, [(0, true)]⟩ ⟨false, [], ⟨false, some ⟨.plainError, "boom"⟩⟩⟩ (some "p")
        = .ok (⟨2, regSet (regSet [(0, true)] 1 false) 1 true⟩,
            ⟨false, [], ⟨false, some ⟨.plainError, "boom"⟩⟩⟩,
            [.observersError ⟨.plainError, "boom"⟩])
    ∧ regGet (regSet (regSet [(0, true)] 1 false) 1 true) (some 1) = some true :=
  ⟨(c9_send_failure_released "Chat" ⟨1, [(0, true)]⟩
      ⟨false, [], ⟨false, some ⟨.plainError, "boom"⟩⟩⟩ "p" ⟨.plainError, "boom"⟩
      rfl rfl rfl).1,
    (c9_send_failure_released "Chat" ⟨1, [(0, true)]⟩
      ⟨false, [], ⟨false, some ⟨.plainError, "boom"⟩⟩⟩ "p" ⟨.plainError, "boom"⟩
      rfl rfl rfl).2.1⟩

/-- **C3 (code bug)** — the claim says a `RESPONSE <id> KO <msg>` for an
issued, unresponded `id` marks it responded, publishes `<msg>` on the error
stream and terminates nothing.  The code disagrees: `handleCommand`'s
`switch` compares the boxed `new String(...)` command-type object against the
primitive literals with strict equality, which never matches, so every
inbound SER payload — including this well-formed response — falls to the
`default` branch, throws `BadSerCommand`, and the `bind()` catch requests
termination of the RPTL session.  Evaluation of the embedded code at the
failing input, with uid 0 issued and awaiting: the registry and error stream
are untouched and termination is requested. -/
theorem c3_code_bug_eval :
    handleSerCommand ⟨["TestingService"], ⟨1, [(0, false)]⟩, []⟩ "RESPONSE 0 KO a random error"
        = .error ⟨.badSerCommand, "Bad SER command: Unknown command type: RESPONSE"⟩
    ∧ onSerPayload ⟨["TestingService"], ⟨1, [(0, false)]⟩, []⟩ "RESPONSE 0 KO a random error"
        = (⟨["TestingService"], ⟨1, [(0, false)]⟩, []⟩, [.terminationRequested]) := by
  constructor
  · decide
  · decide

/-- **C10** — Whenever the requested data is unavailable (no running session,
or the wrong registration mode), `getActors`, `getStatus` and
`getSerProtocol` do not throw: each returns a fresh observable already
errored with a `{message}` object, and the engine's state is unchanged. -/
theorem c10_accessors_error_observable (st : RptlModel) :
    (st.msgStopped = true →
      getActors st = .ok (st, .freshErrored "Unable to get actors without a running session")
      ∧ getStatus st = .ok (st, .freshErrored "Unable to check for status without any session")
      ∧ getSerProtocol st
          = .ok (st, .freshErrored
              "Unable to retrieve SER Protocol subject without any running session"))
    ∧ (st.msgStopped = false → st.registeredMode = false →
      getActors st = .ok (st, .freshErrored "Unable to get actors inside unregistered mode")
      ∧ getSerProtocol st
          = .ok (st, .freshErrored
              "Unable to retrieve SER Protocol subject into unregistered RPTL mode"))
    ∧ (st.msgStopped = false → st.registeredMode = true →
      getStatus st = .ok (st, .freshErrored "Unable to check for status if already registered")) := by
  refine ⟨?_, ?_, ?_⟩
  · intro hstop
    refine ⟨?_, ?_, ?_⟩
      <;> simp [getActors, getStatus, getSerProtocol, isSessionRunning, isRegisteredM, hstop]
  · intro hrun hunreg
    constructor
      <;> simp [getActors, getSerProtocol, isSessionRunning, isRegisteredM, hrun, hunreg]
  · intro hrun hreg
    simp [getStatus, isSessionRunning, isRegisteredM, hrun, hreg, Except.map]

theorem c10_witness :
    getActors ⟨false, none, [], false, false, false, true, none⟩
        = .ok (⟨false, none, [], false, false, false, true, none⟩,
            .freshErrored "Unable to get actors without a running session")
    ∧ getStatus ⟨false, none, [], false, false, false, true, none⟩
        = .ok (⟨false, none, [], false, false, false, true, none⟩,
            .freshErrored "Unable to check for status without any session")
    ∧ getSerProtocol ⟨false, none, [], false, false, false, true, none⟩
        = .ok (⟨false, none, [], false, false, false, true, none⟩,
            .freshErrored "Unable to retrieve SER Protocol subject without any running session") :=
  (c10_accessors_error_observable ⟨false, none, [], false, false, false, true, none⟩).1 rfl

/-- **C4** — For every running RPTL session, any exception raised while
handling one inbound line (for example an unknown command for the current
mode) causes the engine to close the transport with internal-error code 1011
and the exception's message as the reason string, and the session state is
torn down (subjects finalised, `DISCONNECTED` notified); the inbound handler
itself returns normally, letting no exception escape. -/
theorem c4_inbound_exception_closes_1011 (st : RptlModel) (line : String) (e : JsError)
    (_hrun : st.msgStopped = false)
    (herr : handleMessage st line = .error e) :
    onInboundLine st line
      = ({ st with msgStopped := true, closure := some (wsInternalError, e.message) },
        finalizeEvents st none ++ [.stateNext .disconnected]) := by
  simp only [onInboundLine, herr]
  simp [clearSessionEvents, finalizeEvents, rptlStateOf]

/-- Parsing the command name of a `LOGGED_IN <uid> <name>` line: one token is
consumed and the remainder starts at the uid token. -/
theorem parse_logged_in_command (u nm : List Char)
    (hu : u ≠ []) (huch : WordChars u) :
    parseToStr (String.mk ("LOGGED_IN ".data ++ u ++ ' ' :: nm)) []
        [strScheme "rptlCommand"]
      = .ok (String.mk (u ++ ' ' :: nm), [("rptlCommand", JsValue.strObj "LOGGED_IN")]) := by
  have hp1 := parseToStr_glue (α := JsValue) [("rptlCommand", fun s => JsValue.strObj s)]
    [([], "LOGGED_IN".data)] (' ' :: (u ++ ' ' :: nm)) [] rfl
    (by
      intro p hp
      simp only [List.mem_singleton] at hp
      subst hp
      exact ⟨by decide, by decide, by decide⟩)
    (by intro p hp; simp at hp)
    (Or.inr rfl)
    (by decide)
    (by intro x hx; rfl)
  have hinput : glue [([], "LOGGED_IN".data)] ++ (' ' :: (u ++ ' ' :: nm))
      = "LOGGED_IN ".data ++ u ++ ' ' :: nm := by
    have hsp : "LOGGED_IN ".data = "LOGGED_IN".data ++ [' '] := by decide
    simp [glue, hsp]
  rw [hinput] at hp1
  have hdrop1 : (' ' :: (u ++ ' ' :: nm)).dropWhile (· == ' ') = u ++ ' ' :: nm := by
    have h1 : ((' ' : Char) == ' ') = true := by decide
    simp only [List.dropWhile_cons, h1, if_true]
    exact dropWhile_word_prefix (' ' :: nm) hu huch
  rw [hdrop1] at hp1
  exact hp1

/-- Parsing the `<uid> <name>` arguments of a `LOGGED_IN` line against the
map already holding the command name. -/
theorem parse_logged_in_args (u nm : List Char) (uv : Nat)
    (hu : u ≠ []) (huch : WordChars u) (hnum : jsNumber (String.mk u) = some uv)
    (hnm : nm ≠ []) (hnmch : WordChars nm) :
    parseToStr (String.mk (u ++ ' ' :: nm)) [("rptlCommand", JsValue.strObj "LOGGED_IN")]
        [numScheme "uid", strScheme "name"]
      = .ok ("", [("rptlCommand", JsValue.strObj "LOGGED_IN"),
          ("uid", JsValue.numObj (some uv)), ("name", JsValue.strObj (String.mk nm))]) := by
  have hp2 := parseToStr_glue (α := JsValue)
    [("uid", fun s => JsValue.numObj (jsNumber s)), ("name", fun s => JsValue.strObj s)]
    [([], u), ([' '], nm)] [] [("rptlCommand", JsValue.strObj "LOGGED_IN")] rfl
    (by
      intro p hp
      rcases List.mem_cons.mp hp with hp | hp
      · subst hp
        exact ⟨by intro c hc; simp at hc, hu, huch⟩
      · simp only [List.mem_singleton] at hp
        subst hp
        refine ⟨?_, hnm, hnmch⟩
        intro c hc
        simpa using hc)
    (by
      intro p hp
      simp only [List.tail_cons, List.mem_singleton] at hp
      subst hp
      simp)
    (Or.inl rfl)
    (by decide)
    (by decide)
  have hinput2 : glue [([], u), ([' '], nm)] ++ ([] : List Char) = u ++ ' ' :: nm := by
    simp [glue]
  rw [hinput2] at hp2
  simp only [List.zip_cons_cons, List.zip_nil_right, List.map_cons, List.map_nil] at hp2
  rw [hnum] at hp2
  exact hp2

/-- **C1** — While the RPTL engine is Registered (with a recorded local
participant and a constructed roster subject), handling an inbound line
`LOGGED_IN <uid> <name>` whose uid differs from the local participant's own
uid appends the actor `(uid, name)` to the roster and republishes the roster
to roster observers; if the uid equals the local participant's own uid, the
roster is left unchanged and nothing is republished. -/
theorem c1_logged_in_roster (st : RptlModel) (self : Actor) (u nm : List Char) (uv : Nat)
    (hreg : st.registeredMode = true) (hself : st.selfActor = some self)
    (hact : st.actorsInit = true)
    (hu : u ≠ []) (huch : WordChars u) (hnum : jsNumber (String.mk u) = some uv)
    (hnm : nm ≠ []) (hnmch : WordChars nm) :
    (jsNumEq (some uv) self.uid = false →
      handleMessage st (String.mk ("LOGGED_IN ".data ++ u ++ ' ' :: nm))
        = .ok ({ st with lastActorsValue := st.lastActorsValue ++ [⟨some uv, String.mk nm⟩] },
            [.rosterNext (st.lastActorsValue ++ [⟨some uv, String.mk nm⟩])]))
    ∧ (jsNumEq (some uv) self.uid = true →
      handleMessage st (String.mk ("LOGGED_IN ".data ++ u ++ ' ' :: nm)) = .ok (st, [])) := by
  have hmsg : handleMessage st (String.mk ("LOGGED_IN ".data ++ u ++ ' ' :: nm))
      = handleLoggedInCmd st (String.mk (u ++ ' ' :: nm))
          [("rptlCommand", JsValue.strObj "LOGGED_IN")] := by
    simp only [handleMessage]
    rw [parse_logged_in_command u nm hu huch]
    simp only [hreg]
    rfl
  have hcmd : handleLoggedInCmd st (String.mk (u ++ ' ' :: nm))
      [("rptlCommand", JsValue.strObj "LOGGED_IN")]
      = if jsNumEq (some uv) self.uid then .ok (st, [])
        else .ok ({ st with lastActorsValue := st.lastActorsValue ++ [⟨some uv, String.mk nm⟩] },
            [.rosterNext (st.lastActorsValue ++ [⟨some uv, String.mk nm⟩])]) := by
    simp only [handleLoggedInCmd]
    rw [parse_logged_in_args u nm uv hu huch hnum hnm hnmch]
    simp only [hself, hact]
    rfl
  constructor
  · intro hne
    rw [hmsg, hcmd, hne]
    simp
  · intro heq
    rw [hmsg, hcmd, heq]
    simp

theorem c1_witness :
    jsNumEq (some 8) (Actor.mk (some 42) "ThisALV").uid = false
    ∧ handleMessage ⟨true, some ⟨some 42, "ThisALV"⟩, [], true, false, true, false, none⟩
        (String.mk ("LOGGED_IN ".data ++ ['8'] ++ ' ' :: "Carol".data))
      = .ok (⟨true, some ⟨some 42, "ThisALV"⟩, [⟨some 8, String.mk "Carol".data⟩],
          true, false, true, false, none⟩,
        [.rosterNext [⟨some 8, String.mk "Carol".data⟩]]) :=
  ⟨by decide,
    (c1_logged_in_roster ⟨true, some ⟨some 42, "ThisALV"⟩, [], true, false, true, false, none⟩
      ⟨some 42, "ThisALV"⟩ ['8'] "Carol".data 8
      rfl rfl rfl (by decide) (by decide) (by decide) (by decide) (by decide)).1 (by decide)⟩

theorem c4_witness :
    handleMessage ⟨true, some ⟨some 42, "ThisALV"⟩, [], true, false, true, false, none⟩
        "AVAILABILITY 2 5"
        = .error ⟨.badServerMessage, "Unavailable command: AVAILABILITY"⟩
    ∧ onInboundLine ⟨true, some ⟨some 42, "ThisALV"⟩, [], true, false, true, false, none⟩
        "AVAILABILITY 2 5"
      = (⟨true, some ⟨some 42, "ThisALV"⟩, [], true, false, true, true,
          some (wsInternalError, "Unavailable command: AVAILABILITY")⟩,
        finalizeEvents ⟨true, some ⟨some 42, "ThisALV"⟩, [], true, false, true, false, none⟩ none
          ++ [.stateNext .disconnected]) :=
  ⟨by decide,
    c4_inbound_exception_closes_1011
      ⟨true, some ⟨some 42, "ThisALV"⟩, [], true, false, true, false, none⟩
      "AVAILABILITY 2 5" ⟨.badServerMessage, "Unavailable command: AVAILABILITY"⟩
      rfl (by decide)⟩

end RptClient
